import Mathlib

/-!
Verification of the AgriSense advisory client core: the payload normalizer,
the preview/confirm workflow state machine, the location-resolution fallback,
the bounded local history store, and the disease-upload pipeline.  All
definitions are shallow embeddings of the JavaScript source
(`src/pages/CropForm.jsx`, `src/pages/Results.jsx`, `src/pages/Home.jsx` and
the disease-detection page).
-/

namespace AgriSense

/-! ## JavaScript primitives used by the source -/

/-- Whitespace characters recognised by `String.prototype.trim` (the ones that
can occur in a text input: space, tab, newline, carriage return, vertical tab,
form feed, no-break space). -/
def jsIsWhitespace (c : Char) : Bool :=
  c = ' ' || c = '\t' || c = '\n' || c = '\r' ||
  c = (Char.ofNat 11) || c = (Char.ofNat 12) || c = (Char.ofNat 160)

/-- `String.prototype.trim`: drop whitespace from both ends. -/
def jsTrim (s : String) : String :=
  String.mk (((s.toList.dropWhile jsIsWhitespace).reverse.dropWhile
    jsIsWhitespace).reverse)

/-- JavaScript `x || null` on a string operand: the empty string is falsy. -/
def orNullStr (s : String) : Option String :=
  if s = "" then none else some s

/-! ## Payload normalizer (`CropForm.jsx`, `mapTemperatureCategory`,
`mapHumidityCategory`, `mapRainfallCategory`, `buildPayload`) -/

/-- The raw form state of `CropForm.jsx` (`INITIAL_FORM` shape): every field is
the string held by the corresponding input element. -/
structure CropFormFields where
  location : String
  previous_crop : String
  land_size : String
  irrigation_type : String
  goal : String
  temperature : String
  humidity : String
  rainfall : String
  N : String
  P : String
  K : String
  ph : String
  deriving DecidableEq, Repr

/-- `INITIAL_FORM` of `CropForm.jsx`: every field empty. -/
def INITIAL_FORM : CropFormFields :=
  ⟨"", "", "", "", "", "", "", "", "", "", "", ""⟩

def mapTemperatureCategory (value : String) : Option ℚ :=
  if value = "Cool" then some 18
  else if value = "Moderate" then some 25
  else if value = "Hot" then some 32
  else none

def mapHumidityCategory (value : String) : Option ℚ :=
  if value = "Low" then some 30
  else if value = "Medium" then some 55
  else if value = "High" then some 80
  else none

def mapRainfallCategory (value : String) : Option ℚ :=
  if value = "Low" then some 400
  else if value = "Medium" then some 750
  else if value = "High" then some 1200
  else none

/-- The four optional manual soil readings, fully populated (`buildPayload`
only ever builds a complete record or `null`). -/
structure ManualSoil where
  N : ℚ
  P : ℚ
  K : ℚ
  ph : ℚ
  deriving DecidableEq, Repr

/-- The JSON body sent to the advisory endpoints. -/
structure AdvisoryPayload where
  location : String
  previous_crop : Option String
  land_size : Option ℚ
  irrigation_type : Option String
  goal : Option String
  temperature : Option ℚ
  humidity : Option ℚ
  rainfall : Option ℚ
  manual_soil : Option ManualSoil
  deriving DecidableEq, Repr

/-- `buildPayload` of `CropForm.jsx`.  `num` stands for the JavaScript
`Number(...)` coercion applied to a non-empty input string. -/
def buildPayload (num : String → ℚ) (form : CropFormFields) : AdvisoryPayload :=
  { location := jsTrim form.location
    previous_crop := orNullStr form.previous_crop
    land_size := if form.land_size = "" then none else some (num form.land_size)
    irrigation_type := orNullStr form.irrigation_type
    goal := orNullStr form.goal
    temperature := mapTemperatureCategory form.temperature
    humidity := mapHumidityCategory form.humidity
    rainfall := mapRainfallCategory form.rainfall
    manual_soil :=
      if form.N ≠ "" ∨ form.P ≠ "" ∨ form.K ≠ "" ∨ form.ph ≠ "" then
        some { N := if form.N ≠ "" then num form.N else 0
               P := if form.P ≠ "" then num form.P else 0
               K := if form.K ≠ "" then num form.K else 0
               ph := if form.ph ≠ "" then num form.ph else 7 }
      else none }

/-! ## Error bodies of the advisory endpoints -/

/-- The `detail` member of a non-2xx error body: either a string or an array
of objects whose `msg` fields are joined (`errData.detail.map(d => d.msg)`). -/
inductive ErrDetail
  | str (s : String)
  | list (msgs : List String)
  deriving DecidableEq, Repr

/-- A parsed non-2xx error body: `detail` may be absent. -/
structure ErrBody where
  detail : Option ErrDetail
  deriving DecidableEq, Repr

/-- The outcome of one fetch, as observed by the client: a 2xx response with a
parsed body, a non-2xx response (whose error body may itself fail to parse,
hence the `Option`), or a thrown transport/parse exception with its message. -/
inductive NetOutcome (α : Type)
  | ok (a : α)
  | fail (body : Option ErrBody)
  | netError (msg : String)
  deriving DecidableEq, Repr

/-- The error text computed from a non-2xx body in `handlePreview` and
`handleConfirm`:
`(errData?.detail && (Array.isArray(...) ? ....join("; ") : detail)) || generic`.
An absent body, an absent `detail`, an empty-string `detail` and an array
joining to the empty string are all falsy and yield the generic message. -/
def rawDetailText (body : Option ErrBody) : String :=
  match body with
  | none => ""
  | some b =>
    match b.detail with
    | none => ""
    | some (.str s) => s
    | some (.list msgs) => String.intercalate "; " msgs

/-- The surfaced error text: the raw detail when truthy, else the generic
message. -/
def detailOrGeneric (generic : String) (body : Option ErrBody) : String :=
  if rawDetailText body = "" then generic else rawDetailText body

/-! ## Reverse geocoding and the GPS fallback string (`resolveLocation`) -/

/-- Left-pad the decimal representation of `m` with zeros to four digits. -/
def pad4 (m : ℕ) : String :=
  let s := toString m
  String.mk (List.replicate (4 - s.length) '0') ++ s

/-- Render the non-negative rational `n / 10000` with exactly four decimals. -/
def decimalString4 (n : ℕ) : String :=
  toString (n / 10000) ++ "." ++ pad4 (n % 10000)

/-- The rounding of `toFixed(4)`: the integer `n` for which `n / 10^4 - x` is
closest to zero, ties resolved to the larger `n` (the ECMAScript rule).  This
is `⌊x * 10000 + 1/2⌋`, computed here on the reduced numerator and
denominator so that it evaluates by kernel reduction;
`roundTiesUp4_eq_floor` below proves the characterisation. -/
def roundTiesUp4 (x : ℚ) : ℤ :=
  (2 * x.num * 10000 + (x.den : ℤ)) / (2 * (x.den : ℤ))

/-- `Number.prototype.toFixed(4)` on an exact rational: the nearest multiple
of `1/10000`, ties toward the larger integer numerator, with a leading sign
for negative inputs (the ECMAScript algorithm negates first). -/
def jsToFixed4 (x : ℚ) : String :=
  if x < 0 then "-" ++ decimalString4 (roundTiesUp4 (-x)).toNat
  else decimalString4 (roundTiesUp4 x).toNat

/-- The computational rounding agrees with the round-half-up floor
characterisation of the ECMAScript specification. -/
lemma roundTiesUp4_eq_floor (x : ℚ) :
    roundTiesUp4 x = ⌊x * 10000 + 1/2⌋ := by
  have h0 : (x.den : ℚ) ≠ 0 := Nat.cast_ne_zero.mpr x.den_pos.ne'
  have hx : x * 10000 + 1/2 =
      ((2 * x.num * 10000 + (x.den : ℤ) : ℤ) : ℚ) / ((2 * x.den : ℕ) : ℚ) := by
    conv_lhs => rw [← Rat.num_div_den x]
    push_cast
    field_simp
    ring
  rw [hx, Rat.floor_intCast_div_natCast, roundTiesUp4]
  push_cast
  ring_nf

/-- The deterministic fallback string of `resolveLocation`:
``GPS: ${latitude.toFixed(4)}, ${longitude.toFixed(4)}``. -/
def gpsFallbackString (lat lng : ℚ) : String :=
  "GPS: " ++ jsToFixed4 lat ++ ", " ++ jsToFixed4 lng

/-- Outcome of the `GET /reverse-geocode` call as seen by `resolveLocation`:
a 2xx response with an optional `location` field, a non-2xx response, or a
thrown transport/JSON exception (both caught and ignored). -/
inductive GeoOutcome
  | ok (location : Option String)
  | notOk
  | netError
  deriving DecidableEq, Repr

/-- `resolveLocation` of `CropForm.jsx`: on a 2xx response returns
`data.location || fallback` (the empty string is falsy), otherwise the
fallback string. -/
def resolveLocation (lat lng : ℚ) (o : GeoOutcome) : String :=
  match o with
  | .ok loc =>
    match loc with
    | some s => if s = "" then gpsFallbackString lat lng else s
    | none => gpsFallbackString lat lng
  | .notOk => gpsFallbackString lat lng
  | .netError => gpsFallbackString lat lng

/-! ## Advisory workflow state machine (`CropForm.jsx` component state) -/

/-- `weather` member of a preview response. -/
structure WeatherData where
  temperature : ℚ
  humidity : ℚ
  rainfall : ℚ
  deriving DecidableEq, Repr

/-- `soil` member of a preview response. -/
structure SoilData where
  N : ℚ
  P : ℚ
  K : ℚ
  ph : ℚ
  deriving DecidableEq, Repr

/-- Body of a successful `POST /farmer-crop-advisory-preview` response, held
in the `previewData` state variable. -/
structure PreviewData where
  location : String
  weather : WeatherData
  soil : SoilData
  soil_source : String
  weather_source : String
  deriving DecidableEq, Repr

/-- One element of `top_crops` in a confirm response. -/
structure TopCrop where
  crop_name : String
  expected_yield : ℚ
  estimated_profit : ℚ
  deriving DecidableEq, Repr

/-- Body of a successful `POST /farmer-crop-advisory` response. -/
structure Advisory where
  recommended_crop : String
  expected_yield : ℚ
  estimated_profit : ℚ
  top_crops : Option (List TopCrop)
  soil_source : String
  weather_source : String
  deriving DecidableEq, Repr

/-- The `inputs` member of the result payload: the confirm-request payload
augmented with the server-reported sources. -/
structure ResultInputs where
  payload : AdvisoryPayload
  soil_source : String
  weather_source : String
  deriving DecidableEq, Repr

/-- The navigation-state payload handed to the results view by
`handleConfirm`. -/
structure ResultPayload where
  recommendedCrop : String
  expectedYield : ℚ
  estimatedProfit : ℚ
  topCrops : List TopCrop
  inputs : ResultInputs
  land_size : Option ℚ
  deriving DecidableEq, Repr

/-- The `step` state variable (`'form' | 'confirm'`), with a terminal state
for having navigated to the results view. -/
inductive Step
  | form
  | confirm
  | done
  deriving DecidableEq, Repr

/-- The cached last-known location (`agrisense_last_location`). -/
structure CachedLoc where
  name : String
  coords : Option (ℚ × ℚ)
  deriving DecidableEq, Repr

/-- The component state of `CropForm.jsx` that the workflow manipulates. -/
structure CropState where
  step : Step
  form : CropFormFields
  previewData : Option PreviewData
  error : String
  gpsMessage : String
  usingGps : Bool
  isLoading : Bool
  mapCoords : Option (ℚ × ℚ)
  lastLocationCache : Option CachedLoc
  navigated : Option (ResultPayload × Option PreviewData)
  deriving DecidableEq, Repr

/-- The initial state of the component: `step = 'form'`, no preview, fields
from `INITIAL_FORM` with the location prefilled from the cache when one is
present. -/
def initialState (cached : Option CachedLoc) : CropState :=
  { step := .form
    form := { INITIAL_FORM with
                location := match cached with
                            | some c => if c.name = "" then "" else c.name
                            | none => "" }
    previewData := none
    error := ""
    gpsMessage := ""
    usingGps := false
    isLoading := false
    mapCoords := match cached with
                 | some c => c.coords
                 | none => none
    lastLocationCache := cached
    navigated := none }

/-- Names of the form fields written by `handleChange`. -/
inductive FieldName
  | location | previous_crop | land_size | irrigation_type | goal
  | temperature | humidity | rainfall | N | P | K | ph
  deriving DecidableEq, Repr

/-- `setForm((prev) => ({ ...prev, [name]: value }))`. -/
def setFormField (f : FieldName) (v : String) (form : CropFormFields) :
    CropFormFields :=
  match f with
  | .location => { form with location := v }
  | .previous_crop => { form with previous_crop := v }
  | .land_size => { form with land_size := v }
  | .irrigation_type => { form with irrigation_type := v }
  | .goal => { form with goal := v }
  | .temperature => { form with temperature := v }
  | .humidity => { form with humidity := v }
  | .rainfall => { form with rainfall := v }
  | .N => { form with N := v }
  | .P => { form with P := v }
  | .K => { form with K := v }
  | .ph => { form with ph := v }

/-- Outcome of `navigator.geolocation.getCurrentPosition`: the platform is
missing, the position callback failed, or a fix arrived together with the
outcome of the subsequent reverse-geocode call. -/
inductive GpsEvent
  | unsupported
  | posError
  | fix (lat lng : ℚ) (geo : GeoOutcome)
  deriving DecidableEq, Repr

/-- User / platform events driving the `CropForm` component. -/
inductive CropEvent
  | setField (f : FieldName) (v : String)
  | voiceResult (transcript : String)
  | gps (e : GpsEvent)
  | mapSelect (lat lng : ℚ) (geo : GeoOutcome)
  | preview (o : NetOutcome PreviewData)
  | confirm (o : NetOutcome Advisory)
  | back
  deriving DecidableEq, Repr

/-- A network request issued by a transition (the advisory endpoints and the
reverse-geocode endpoint). -/
inductive Request
  | previewReq (payload : AdvisoryPayload)
  | confirmReq (payload : AdvisoryPayload)
  | geocodeReq (lat lng : ℚ)
  deriving DecidableEq, Repr

/-- Error text produced by the `catch` of `handlePreview`:
`err?.message || "Unable to load location data. Check backend and try again."`.
A thrown non-2xx detail is always non-empty. -/
def previewErrorText : NetOutcome PreviewData → String
  | .fail body => detailOrGeneric "Preview failed." body
  | .netError m =>
    if m = "" then "Unable to load location data. Check backend and try again."
    else m
  | .ok _ => ""

/-- Error text produced by the `catch` of `handleConfirm`. -/
def confirmErrorText : NetOutcome Advisory → String
  | .fail body => detailOrGeneric "Advisory request failed." body
  | .netError m =>
    if m = "" then "Unable to fetch recommendations. Please try again." else m
  | .ok _ => ""

/-- The result payload assembled by `handleConfirm` on success.
`advisory.top_crops || [...]` only falls back when the member is absent
(an empty array is truthy in JavaScript). -/
def mkResultPayload (num : String → ℚ) (form : CropFormFields)
    (payload : AdvisoryPayload) (adv : Advisory) : ResultPayload :=
  { recommendedCrop := adv.recommended_crop
    expectedYield := adv.expected_yield
    estimatedProfit := adv.estimated_profit
    topCrops :=
      match adv.top_crops with
      | some l => l
      | none => [⟨adv.recommended_crop, adv.expected_yield,
                  adv.estimated_profit⟩]
    inputs := ⟨payload, adv.soil_source, adv.weather_source⟩
    land_size := if form.land_size = "" then none else some (num form.land_size) }

/-- One transition of the `CropForm` component.  The second component of the
result records the network request the handler issued, if any. -/
def cropStep (num : String → ℚ) (s : CropState) :
    CropEvent → CropState × Option Request
  | .setField f v =>
    ({ s with form := setFormField f v s.form, gpsMessage := "" }, none)
  | .voiceResult transcript =>
    ({ s with form := { s.form with location := transcript },
              gpsMessage := "" }, none)
  | .gps e =>
    match e with
    | .unsupported =>
      ({ s with error :=
          "GPS is not supported in this browser. Please enter location manually." },
       none)
    | .posError =>
      ({ s with error :=
          "Unable to fetch GPS location. Please enter location manually.",
                usingGps := false, gpsMessage := "" }, none)
    | .fix lat lng geo =>
      let name := resolveLocation lat lng geo
      ({ s with error := ""
                form := { s.form with location := name }
                mapCoords := some (lat, lng)
                gpsMessage := name
                lastLocationCache := some ⟨name, some (lat, lng)⟩
                usingGps := false }, some (.geocodeReq lat lng))
  | .mapSelect lat lng geo =>
    let name := resolveLocation lat lng geo
    ({ s with form := { s.form with location := name }
              mapCoords := some (lat, lng)
              gpsMessage := name
              lastLocationCache := some ⟨name, some (lat, lng)⟩ },
     some (.geocodeReq lat lng))
  | .preview o =>
    if jsTrim s.form.location = "" then
      ({ s with error := "Please enter a location." }, none)
    else
      let payload := buildPayload num s.form
      match o with
      | .ok data =>
        ({ s with error := "", isLoading := false,
                  previewData := some data, step := .confirm },
         some (.previewReq payload))
      | o =>
        ({ s with error := previewErrorText o, isLoading := false },
         some (.previewReq payload))
  | .confirm o =>
    match s.previewData with
    | none => (s, none)
    | some _ =>
      let payload := buildPayload num s.form
      match o with
      | .ok adv =>
        ({ s with error := "", isLoading := false, step := .done,
                  navigated :=
                    some (mkResultPayload num s.form payload adv,
                          s.previewData) },
         some (.confirmReq payload))
      | o =>
        ({ s with error := confirmErrorText o, isLoading := false },
         some (.confirmReq payload))
  | .back =>
    ({ s with step := .form, previewData := none, error := "" }, none)

/-- States reachable from some initial state by a sequence of events. -/
inductive Reachable (num : String → ℚ) : CropState → Prop
  | init (cached : Option CachedLoc) : Reachable num (initialState cached)
  | step {s : CropState} (ev : CropEvent) :
      Reachable num s → Reachable num (cropStep num s ev).1

/-! ## Local history store (`Results.jsx` `saveToHistory`, disease page
history write, `Home.jsx` read) -/

/-- A JSON scalar as it appears in the variably-shaped detection response:
a string, a number, or the structured treatment object with its optional
`immediate` / `long_term` / `prevention` members. -/
inductive JVal
  | str (s : String)
  | num (q : ℚ)
  | obj (immediate : Option String) (long_term : Option String)
        (prevention : Option String)
  deriving DecidableEq, Repr

/-- JavaScript truthiness of such a value. -/
def JVal.truthy : JVal → Bool
  | .str s => s ≠ ""
  | .num q => q ≠ 0
  | .obj _ _ _ => true

/-- The `summary` member of a history entry, per producer. -/
inductive HistorySummary
  | crop (cropName : String) (location : String) (profit : Option ℚ)
  | disease (diseaseName : String) (confidence : Option JVal) (fileName : String)
  deriving DecidableEq, Repr

/-- One persisted history entry (`{ type, summary, date }`). -/
structure HistoryEntry where
  type : String
  summary : HistorySummary
  date : String
  deriving DecidableEq, Repr

/-- `saveToHistory` of `Results.jsx`: `history.unshift(entry)` followed by
`history.slice(0, 20)` before the write-back. -/
def saveToHistory (e : HistoryEntry) (h : List HistoryEntry) :
    List HistoryEntry :=
  (e :: h).take 20

/-- The history update inside `handleDetect` of the disease page: the same
unshift-then-`slice(0, 20)` sequence. -/
def diseaseSaveHistory (e : HistoryEntry) (h : List HistoryEntry) :
    List HistoryEntry :=
  (e :: h).take 20

/-- A sequence of appends by either producer, oldest first. -/
def appendAll (es : List HistoryEntry) (h : List HistoryEntry) :
    List HistoryEntry :=
  es.foldl (fun acc e => saveToHistory e acc) h

/-- The history read of `Home.jsx`:
`JSON.parse(localStorage.getItem("agrisense_history") || "[]")` then
`slice(0, n)`, the whole wrapped in `try { ... } catch { }` around the
initial `[]` state.  `parse` stands for `JSON.parse` followed by the
array-shaped use of the value; it returns `none` whenever the stored string
is unparsable or not an array (in which case the `catch` leaves the state
at the empty list). -/
def readRecent (parse : String → Option (List HistoryEntry))
    (storage : Option String) (n : ℕ) : List HistoryEntry :=
  let raw :=
    match storage with
    | none => "[]"
    | some s => if s = "" then "[]" else s
  match parse raw with
  | some l => l.take n
  | none => []

/-! ## Disease upload pipeline (`DiseaseDetection` page) -/

/-- A staged upload file: name, size in bytes, MIME type. -/
structure JFile where
  name : String
  size : ℕ
  mime : String
  deriving DecidableEq, Repr

/-- The detection server response: every field optional, names per the
multi-name tolerance of the endpoint. -/
structure DetectResponse where
  disease_name : Option String
  disease : Option String
  label : Option String
  confidence : Option JVal
  confidence_percent : Option JVal
  treatment_advice : Option JVal
  treatment : Option JVal
  recommendation : Option JVal
  advice : Option JVal
  deriving DecidableEq, Repr

/-- JavaScript `a || b` where `a` is an optional string member: an absent
member and the empty string are falsy. -/
def orStr (a : Option String) (b : String) : String :=
  match a with
  | some s => if s = "" then b else s
  | none => b

/-- JavaScript `a || b` on optional JSON values. -/
def orJVal (a : Option JVal) (b : Option JVal) : Option JVal :=
  match a with
  | some v => if v.truthy then some v else b
  | none => b

/-- The normalized result held in the `result` state variable. -/
structure DiseaseResult where
  diseaseName : String
  confidence : Option JVal
  treatment : Option JVal
  deriving DecidableEq, Repr

/-- The `setResult({...})` normalization of `handleDetect`:
`data.disease_name || data.disease || data.label || "Unknown disease"`,
`typeof data.confidence === "number" ? data.confidence : data.confidence_percent`,
and the four-way treatment fallback chain. -/
def normalizeResult (data : DetectResponse) : DiseaseResult :=
  { diseaseName :=
      orStr data.disease_name (orStr data.disease
        (orStr data.label "Unknown disease"))
    confidence :=
      match data.confidence with
      | some (.num q) => some (.num q)
      | _ => data.confidence_percent
    treatment :=
      orJVal data.treatment_advice (orJVal data.treatment
        (orJVal data.recommendation data.advice)) }

/-- A definition that follows the specification's words, for comparison with
`normalizeResult`: the disease name is taken from "the first present field
among `disease_name`, `disease`, `label`" (presence, not truthiness). -/
def specFirstPresentDiseaseName (data : DetectResponse) : Option String :=
  match data.disease_name with
  | some s => some s
  | none =>
    match data.disease with
    | some s => some s
    | none => data.label

/-- The component state of the disease page touched by `processFile`. -/
structure DiseaseState where
  file : Option JFile
  previewUrl : String
  error : String
  result : Option DiseaseResult
  deriving DecidableEq, Repr

/-- `processFile` of the disease page.  `createURL` stands for
`URL.createObjectURL`. -/
def processFile (createURL : JFile → String) (selected : Option JFile)
    (s : DiseaseState) : DiseaseState :=
  let s := { s with error := "", result := none }
  match selected with
  | none => { s with file := none, previewUrl := "" }
  | some f =>
    if f.size > 10 * 1024 * 1024 then
      { s with error := "File too large. Maximum size is 10MB." }
    else
      { s with file := some f, previewUrl := createURL f }

/-- The displayed confidence percent:
`typeof result?.confidence === "number" ? Math.min(result.confidence * 100, 100) : 0`. -/
def confidencePercent (result : Option DiseaseResult) : ℚ :=
  match result with
  | some r =>
    match r.confidence with
    | some (.num q) => min (q * 100) 100
    | _ => 0
  | none => 0

/-- Whether the low-confidence advisory notice renders:
`result && confidencePercent > 0 && confidencePercent < 40`. -/
def lowConfidenceNoticeShown (result : Option DiseaseResult) : Bool :=
  result.isSome && decide (0 < confidencePercent result) &&
    decide (confidencePercent result < 40)

/-! ## Helper lemmas -/

/-- Taking 20 of an already-taken-20 suffix is taking 20 of the whole. -/
lemma take20_append_take20 {α : Type} (l t : List α) :
    (l ++ t.take 20).take 20 = (l ++ t).take 20 := by
  rw [List.take_append_eq_append_take, List.take_append_eq_append_take,
    List.take_take, Nat.min_eq_left (Nat.sub_le 20 l.length)]

/-- A sequence of bounded appends is the take-20 of the reversed append
sequence joined with the initial store. -/
lemma appendAll_eq_take (es : List HistoryEntry) :
    ∀ h : List HistoryEntry, h.length ≤ 20 →
      appendAll es h = (es.reverse ++ h).take 20 := by
  induction es with
  | nil =>
    intro h hh
    simpa [appendAll] using (List.take_of_length_le hh).symm
  | cons e es ih =>
    intro h hh
    have step : appendAll (e :: es) h = appendAll es ((e :: h).take 20) := rfl
    rw [step, ih _ (List.length_take_le 20 (e :: h)), take20_append_take20]
    simp [List.append_assoc]

/-- An all-whitespace string trims to the empty string. -/
lemma jsTrim_eq_empty_of_all_whitespace {s : String}
    (h : s.toList.all jsIsWhitespace = true) : jsTrim s = "" := by
  have h1 : s.toList.dropWhile jsIsWhitespace = [] :=
    List.dropWhile_eq_nil_iff.mpr (by simpa [List.all_eq_true] using h)
  simp only [jsTrim, h1, List.reverse_nil, List.dropWhile_nil]

/-- The message computed from a non-2xx body is never empty (the generic
fallback fills in for every falsy detail). -/
lemma detailOrGeneric_ne_empty {g : String} (hg : g ≠ "")
    (body : Option ErrBody) : detailOrGeneric g body ≠ "" := by
  by_cases h : rawDetailText body = "" <;> simp [detailOrGeneric, h, hg]

/-! ## Claim theorems -/

/-- Claim C1: `buildPayload` realises exactly the documented mapping —
temperature Cool→18, Moderate→25, Hot→32, unset→null; humidity Low→30,
Medium→55, High→80, unset→null; rainfall Low→400, Medium→750, High→1200,
unset→null; `land_size` is parsed when non-empty and null otherwise; and
`manual_soil` is null iff all four raw soil fields are empty strings,
otherwise every entered field is parsed and absent fields default to
N=0, P=0, K=0, ph=7. -/
theorem buildPayload_documented_mapping (num : String → ℚ)
    (form : CropFormFields) :
    mapTemperatureCategory "Cool" = some 18 ∧
    mapTemperatureCategory "Moderate" = some 25 ∧
    mapTemperatureCategory "Hot" = some 32 ∧
    mapTemperatureCategory "" = none ∧
    mapHumidityCategory "Low" = some 30 ∧
    mapHumidityCategory "Medium" = some 55 ∧
    mapHumidityCategory "High" = some 80 ∧
    mapHumidityCategory "" = none ∧
    mapRainfallCategory "Low" = some 400 ∧
    mapRainfallCategory "Medium" = some 750 ∧
    mapRainfallCategory "High" = some 1200 ∧
    mapRainfallCategory "" = none ∧
    (buildPayload num form).temperature = mapTemperatureCategory form.temperature ∧
    (buildPayload num form).humidity = mapHumidityCategory form.humidity ∧
    (buildPayload num form).rainfall = mapRainfallCategory form.rainfall ∧
    (buildPayload num form).land_size =
      (if form.land_size = "" then none else some (num form.land_size)) ∧
    ((buildPayload num form).manual_soil = none ↔
      (form.N = "" ∧ form.P = "" ∧ form.K = "" ∧ form.ph = "")) ∧
    (buildPayload num form).manual_soil =
      (if form.N = "" ∧ form.P = "" ∧ form.K = "" ∧ form.ph = "" then none
       else some { N := if form.N = "" then 0 else num form.N
                   P := if form.P = "" then 0 else num form.P
                   K := if form.K = "" then 0 else num form.K
                   ph := if form.ph = "" then 7 else num form.ph }) := by
  refine ⟨rfl, rfl, rfl, rfl, rfl, rfl, rfl, rfl, rfl, rfl, rfl, rfl,
    rfl, rfl, rfl, rfl, ?_, ?_⟩ <;>
  · unfold buildPayload
    by_cases hN : form.N = "" <;> by_cases hP : form.P = "" <;>
      by_cases hK : form.K = "" <;> by_cases hph : form.ph = "" <;>
      simp [hN, hP, hK, hph]

/-- Claim C2: after any sequence of appends by either producer the store
holds at most 20 entries; each append prepends the new entry; the whole
store equals the newest-first take-20 of the appended sequence; both
producers perform the identical update; and appending 21 entries to an
empty store leaves exactly the 20 most recent (the oldest evicted). -/
theorem history_capacity_invariant (es : List HistoryEntry)
    (h : List HistoryEntry) (hh : h.length ≤ 20) :
    (appendAll es h).length ≤ 20 ∧
    appendAll es h = (es.reverse ++ h).take 20 ∧
    (∀ e h2, saveToHistory e h2 = diseaseSaveHistory e h2) ∧
    (∀ e h2, (saveToHistory e h2).head? = some e) ∧
    (es.length = 21 → appendAll es [] = (es.drop 1).reverse) := by
  have hmain := appendAll_eq_take es h hh
  refine ⟨?_, hmain, fun e h2 => rfl, ?_, ?_⟩
  · rw [hmain]; exact List.length_take_le _ _
  · intro e h2
    simp [saveToHistory, List.take_cons]
  · intro h21
    rw [appendAll_eq_take es [] (by simp), List.append_nil,
      List.take_reverse, h21]

/-- Claim C9: the history read never fails — absent storage, the empty
string, or an unparsable value all yield the empty list, a parsable value
yields its newest-first `take n`, and the result never exceeds `n`
entries. -/
theorem readRecent_total (parse : String → Option (List HistoryEntry))
    (n : ℕ) (hp : parse "[]" = some []) :
    readRecent parse none n = [] ∧
    (∀ s, parse s = none → readRecent parse (some s) n = []) ∧
    (∀ s l, s ≠ "" → parse s = some l →
      readRecent parse (some s) n = l.take n) ∧
    (∀ storage, (readRecent parse storage n).length ≤ n) := by
  refine ⟨by simp [readRecent, hp], ?_, ?_, ?_⟩
  · intro s hs
    by_cases he : s = "" <;> simp [readRecent, he, hs, hp]
  · intro s l he hl
    simp [readRecent, he, hl]
  · intro storage
    unfold readRecent
    rcases storage with _ | s
    · simp [hp]
    · by_cases he : s = ""
      · simp [he, hp]
      · simp only [he, if_neg, ite_false]
        rcases hps : parse s with _ | l
        · simp
        · simp [List.length_take_le]

/-- Claim C10: an oversized file (strictly more than 10 MB) is rejected with
the too-large error while the previously staged file and preview URL are
kept and the previous result is cleared; an accepted file replaces the
staged file and clears the previous result and error. -/
theorem processFile_size_gate (createURL : JFile → String) (f : JFile)
    (s : DiseaseState) :
    (f.size > 10 * 1024 * 1024 →
      processFile createURL (some f) s =
        { s with error := "File too large. Maximum size is 10MB.",
                 result := none }) ∧
    (¬ f.size > 10 * 1024 * 1024 →
      processFile createURL (some f) s =
        { s with file := some f, previewUrl := createURL f,
                 error := "", result := none }) := by
  constructor <;> intro hf <;> simp [processFile, hf]

/-- Claim C8: whenever the reverse-geocode call fails (non-2xx or transport
error) or its 2xx response lacks the `location` field, location resolution
returns exactly `"GPS: {lat to 4 decimals}, {lng to 4 decimals}"`, and the
GPS path and the map-pick path both write that same string into the
location field. -/
theorem gps_fallback_string_exact (num : String → ℚ) (lat lng : ℚ)
    (o : GeoOutcome) (s : CropState)
    (h : o = .notOk ∨ o = .netError ∨ o = .ok none) :
    resolveLocation lat lng o =
      "GPS: " ++ jsToFixed4 lat ++ ", " ++ jsToFixed4 lng ∧
    (cropStep num s (.gps (.fix lat lng o))).1.form.location =
      "GPS: " ++ jsToFixed4 lat ++ ", " ++ jsToFixed4 lng ∧
    (cropStep num s (.mapSelect lat lng o)).1.form.location =
      "GPS: " ++ jsToFixed4 lat ++ ", " ++ jsToFixed4 lng := by
  have hr : resolveLocation lat lng o = gpsFallbackString lat lng := by
    rcases h with h | h | h <;> subst h <;> rfl
  refine ⟨hr, ?_, ?_⟩ <;> simp [cropStep, hr, gpsFallbackString]

/-- Witness for C8 at concrete coordinates, both on a non-2xx response and
on a 2xx response without a `location` field. -/
theorem gps_fallback_string_exact_witness :
    resolveLocation (mkRat 185204 10000) (mkRat 738567 10000) .notOk =
      "GPS: 18.5204, 73.8567" ∧
    resolveLocation (mkRat (-1) 2) (mkRat 3 4) (.ok none) =
      "GPS: -0.5000, 0.7500" := by
  have h1 := (gps_fallback_string_exact (fun _ => 0) (mkRat 185204 10000)
    (mkRat 738567 10000) .notOk (initialState none) (Or.inl rfl)).1
  have h2 := (gps_fallback_string_exact (fun _ => 0) (mkRat (-1) 2) (mkRat 3 4)
    (.ok none) (initialState none) (Or.inr (Or.inr rfl))).1
  exact ⟨h1.trans (by decide), h2.trans (by decide)⟩

/-- Claim C5: when the location field is empty or all-whitespace, the preview
action issues no network request, leaves the step, the form fields and the
preview snapshot unchanged, and surfaces the local validation message. -/
theorem preview_empty_location_validation (num : String → ℚ) (s : CropState)
    (o : NetOutcome PreviewData)
    (h : s.form.location.toList.all jsIsWhitespace = true) :
    (cropStep num s (.preview o)).2 = none ∧
    (cropStep num s (.preview o)).1.step = s.step ∧
    (cropStep num s (.preview o)).1.form = s.form ∧
    (cropStep num s (.preview o)).1.previewData = s.previewData ∧
    (cropStep num s (.preview o)).1.error = "Please enter a location." := by
  have ht := jsTrim_eq_empty_of_all_whitespace h
  simp [cropStep, ht]

/-- A form state whose location is three spaces. -/
def wsFormState : CropState :=
  { initialState none with form := { INITIAL_FORM with location := "   " } }

/-- Witness for C5: the whitespace-only location is rejected locally. -/
theorem preview_empty_location_validation_witness :
    (cropStep (fun _ => 0) wsFormState (.preview (.netError "boom"))).2 = none ∧
    (cropStep (fun _ => 0) wsFormState (.preview (.netError "boom"))).1.step =
      wsFormState.step ∧
    (cropStep (fun _ => 0) wsFormState (.preview (.netError "boom"))).1.form =
      wsFormState.form ∧
    (cropStep (fun _ => 0) wsFormState
      (.preview (.netError "boom"))).1.previewData = wsFormState.previewData ∧
    (cropStep (fun _ => 0) wsFormState (.preview (.netError "boom"))).1.error =
      "Please enter a location." :=
  preview_empty_location_validation (fun _ => 0) wsFormState (.netError "boom")
    (by decide)

/-- Claim C4: on a failing confirm request (non-2xx or transport error) the
workflow keeps its step (so a `Confirm` state remains `Confirm`), keeps the
stored preview snapshot and the form field values, and surfaces a non-empty
error message; the request was issued with the freshly built payload. -/
theorem confirm_failure_preserves_state (num : String → ℚ) (s : CropState)
    (o : NetOutcome Advisory) (p : PreviewData)
    (hp : s.previewData = some p) (ho : ∀ a, o ≠ .ok a) :
    (cropStep num s (.confirm o)).1.step = s.step ∧
    (cropStep num s (.confirm o)).1.previewData = some p ∧
    (cropStep num s (.confirm o)).1.form = s.form ∧
    (cropStep num s (.confirm o)).1.error = confirmErrorText o ∧
    (cropStep num s (.confirm o)).1.error ≠ "" ∧
    (cropStep num s (.confirm o)).2 =
      some (.confirmReq (buildPayload num s.form)) := by
  rcases o with a | body | m
  · exact absurd rfl (ho a)
  · refine ⟨by simp [cropStep, hp], by simp [cropStep, hp],
      by simp [cropStep, hp], by simp [cropStep, hp], ?_, by simp [cropStep, hp]⟩
    simpa [cropStep, hp, confirmErrorText] using
      detailOrGeneric_ne_empty (by decide) body
  · refine ⟨by simp [cropStep, hp], by simp [cropStep, hp],
      by simp [cropStep, hp], by simp [cropStep, hp], ?_, by simp [cropStep, hp]⟩
    simp only [cropStep, hp, confirmErrorText]
    by_cases hm : m = "" <;> simp [hm]

/-- A concrete preview snapshot. -/
def previewSample : PreviewData :=
  ⟨"Pune", ⟨25, 55, 400⟩, ⟨10, 12, 14, 7⟩, "auto", "api"⟩

/-- A concrete `Confirm`-step state holding `previewSample`. -/
def confirmStateSample : CropState :=
  { initialState none with
      step := .confirm
      previewData := some previewSample
      form := { INITIAL_FORM with location := "Pune" } }

/-- Witness for C4 at a concrete failing confirm response carrying a server
detail string. -/
theorem confirm_failure_preserves_state_witness :
    (cropStep (fun _ => 0) confirmStateSample
      (.confirm (.fail (some ⟨some (.str "Server unavailable")⟩)))).1.step =
        confirmStateSample.step ∧
    (cropStep (fun _ => 0) confirmStateSample
      (.confirm (.fail (some ⟨some (.str "Server unavailable")⟩)))).1.previewData =
        some previewSample ∧
    (cropStep (fun _ => 0) confirmStateSample
      (.confirm (.fail (some ⟨some (.str "Server unavailable")⟩)))).1.form =
        confirmStateSample.form ∧
    (cropStep (fun _ => 0) confirmStateSample
      (.confirm (.fail (some ⟨some (.str "Server unavailable")⟩)))).1.error =
        confirmErrorText (.fail (some ⟨some (.str "Server unavailable")⟩)) ∧
    (cropStep (fun _ => 0) confirmStateSample
      (.confirm (.fail (some ⟨some (.str "Server unavailable")⟩)))).1.error ≠ "" ∧
    (cropStep (fun _ => 0) confirmStateSample
      (.confirm (.fail (some ⟨some (.str "Server unavailable")⟩)))).2 =
        some (.confirmReq (buildPayload (fun _ => 0) confirmStateSample.form)) :=
  confirm_failure_preserves_state (fun _ => 0) confirmStateSample
    (.fail (some ⟨some (.str "Server unavailable")⟩)) previewSample rfl
    (fun _ h => NetOutcome.noConfusion h)

/-- Claim C3: in every reachable state, being at the `Confirm` step implies a
preview snapshot is held; the confirm action with no snapshot is a no-op that
issues no request; and the only transition that enters the `Confirm` step
from elsewhere is a preview event with a successful response. -/
theorem confirm_only_after_successful_preview (num : String → ℚ) :
    (∀ s, Reachable num s → s.step = .confirm → s.previewData.isSome = true) ∧
    (∀ s (o : NetOutcome Advisory), s.previewData = none →
      cropStep num s (.confirm o) = (s, none)) ∧
    (∀ s ev, s.step ≠ .confirm → (cropStep num s ev).1.step = .confirm →
      ∃ p, ev = .preview (.ok p)) := by
  have hstep : ∀ s ev, (s.step = .confirm → s.previewData.isSome = true) →
      ((cropStep num s ev).1.step = .confirm →
        (cropStep num s ev).1.previewData.isSome = true) := by
    intro s ev hinv
    cases ev with
    | setField f v => simpa [cropStep] using hinv
    | voiceResult t => simpa [cropStep] using hinv
    | gps e => cases e <;> simpa [cropStep] using hinv
    | mapSelect lat lng geo => simpa [cropStep] using hinv
    | preview o =>
      by_cases ht : jsTrim s.form.location = ""
      · simpa [cropStep, ht] using hinv
      · cases o with
        | ok p => simp [cropStep, ht]
        | fail body => simpa [cropStep, ht] using hinv
        | netError m => simpa [cropStep, ht] using hinv
    | confirm o =>
      rcases hpd : s.previewData with _ | p
      · simpa [cropStep, hpd] using hinv
      · cases o with
        | ok adv => simp [cropStep, hpd]
        | fail body => simp [cropStep, hpd]
        | netError m => simp [cropStep, hpd]
    | back => simp [cropStep]
  refine ⟨?_, ?_, ?_⟩
  · intro s hr
    induction hr with
    | init cached => simp [initialState]
    | step ev hr ih => exact hstep _ ev ih
  · intro s o hpd
    simp [cropStep, hpd]
  · intro s ev hs hconf
    cases ev with
    | setField f v => exact absurd (by simpa [cropStep] using hconf) hs
    | voiceResult t => exact absurd (by simpa [cropStep] using hconf) hs
    | gps e =>
      cases e <;> exact absurd (by simpa [cropStep] using hconf) hs
    | mapSelect lat lng geo =>
      exact absurd (by simpa [cropStep] using hconf) hs
    | preview o =>
      by_cases ht : jsTrim s.form.location = ""
      · exact absurd (by simpa [cropStep, ht] using hconf) hs
      · cases o with
        | ok p => exact ⟨p, rfl⟩
        | fail body => exact absurd (by simpa [cropStep, ht] using hconf) hs
        | netError m => exact absurd (by simpa [cropStep, ht] using hconf) hs
    | confirm o =>
      rcases hpd : s.previewData with _ | p
      · exact absurd (by simpa [cropStep, hpd] using hconf) hs
      · cases o with
        | ok adv => simp [cropStep, hpd] at hconf
        | fail body => exact absurd (by simpa [cropStep, hpd] using hconf) hs
        | netError m => exact absurd (by simpa [cropStep, hpd] using hconf) hs
    | back => simp [cropStep] at hconf

/-- The state reached from a fresh form by typing a location and receiving a
successful preview. -/
def reachedConfirmState : CropState :=
  (cropStep (fun _ => 0)
    ((cropStep (fun _ => 0) (initialState none)
      (.setField .location "Pune")).1)
    (.preview (.ok previewSample))).1

/-- Witness for C3: the concretely reached `Confirm` state holds a preview
snapshot. -/
theorem confirm_only_after_successful_preview_witness :
    reachedConfirmState.step = .confirm ∧
    reachedConfirmState.previewData.isSome = true := by
  have hr : Reachable (fun _ => 0) reachedConfirmState :=
    Reachable.step (.preview (.ok previewSample))
      (Reachable.step (.setField .location "Pune") (Reachable.init none))
  exact ⟨by decide,
    (confirm_only_after_successful_preview (fun _ => 0)).1
      reachedConfirmState hr (by decide)⟩

/-- A normalized result whose confidence input is exactly 0 (a value on the
0–1 scale). -/
def zeroConfidenceResult : DiseaseResult :=
  ⟨"Tomato___Late_blight", some (.num 0), none⟩

/-- Counterexample to claim C6 as stated: at confidence 0 the displayed
percent is 0, which is below 40, yet the low-confidence notice is not
rendered (the code additionally requires the percent to be positive). -/
theorem lowConfidence_notice_threshold_cex :
    confidencePercent (some zeroConfidenceResult) = 0 ∧
    confidencePercent (some zeroConfidenceResult) < 40 ∧
    lowConfidenceNoticeShown (some zeroConfidenceResult) = false := by
  have h0 : confidencePercent (some zeroConfidenceResult) = 0 := by
    simp [confidencePercent, zeroConfidenceResult]
  refine ⟨h0, by rw [h0]; norm_num, ?_⟩
  simp [lowConfidenceNoticeShown, h0]

/-- Claim C6 as amended: for a 0–1 confidence input the displayed percent is
the input scaled by 100 (the clamp at 100 is inactive), and the notice is
rendered exactly when that percent is strictly between 0 and 40; the same
holds when the confidence arrived under `confidence_percent`. -/
theorem lowConfidence_notice_threshold_amended (q : ℚ) (r : DiseaseResult)
    (_hq0 : 0 ≤ q) (hq1 : q ≤ 1) (hc : r.confidence = some (.num q)) :
    confidencePercent (some r) = q * 100 ∧
    (lowConfidenceNoticeShown (some r) = true ↔
      0 < q * 100 ∧ q * 100 < 40) ∧
    (∀ data : DetectResponse, data.confidence = none →
      data.confidence_percent = some (.num q) →
      (normalizeResult data).confidence = some (.num q) ∧
      confidencePercent (some (normalizeResult data)) = q * 100) := by
  have hle : q * 100 ≤ 100 := by nlinarith
  have hpc : confidencePercent (some r) = q * 100 := by
    simp [confidencePercent, hc, min_eq_left hle]
  refine ⟨hpc, ?_, ?_⟩
  · simp [lowConfidenceNoticeShown, hpc]
  · intro data h1 h2
    have hcp : (normalizeResult data).confidence = some (.num q) := by
      simp [normalizeResult, h1, h2]
    exact ⟨hcp, by simp [confidencePercent, hcp, min_eq_left hle]⟩

/-- A normalized result with confidence 1/5 (20%). -/
def lowConfidenceResult : DiseaseResult :=
  ⟨"Apple___Apple_scab", some (.num (mkRat 1 5)), none⟩

/-- Witness for the amended C6: a 20% confidence renders the notice. -/
theorem lowConfidence_notice_threshold_amended_witness :
    confidencePercent (some lowConfidenceResult) = 20 ∧
    lowConfidenceNoticeShown (some lowConfidenceResult) = true := by
  have h := lowConfidence_notice_threshold_amended (mkRat 1 5)
    lowConfidenceResult (by norm_num [mkRat]) (by norm_num [mkRat]) rfl
  refine ⟨h.1.trans (by norm_num [mkRat]), h.2.1.mpr (by norm_num [mkRat])⟩

/-- A detection response whose first present name field is the empty string
while a later field holds a non-empty name. -/
def emptyNameDetectResponse : DetectResponse :=
  ⟨some "", none, some "Blight", none, some (.num (mkRat 9 10)),
   none, none, none, none⟩

/-- Counterexample to claim C7 as stated: on this response the first present
field among `disease_name`, `disease`, `label` is the empty string, yet the
normalized disease name is the later `label` value (JavaScript `||` skips
falsy present fields), so "first present wins" does not hold. -/
theorem disease_normalization_first_present_cex :
    specFirstPresentDiseaseName emptyNameDetectResponse = some "" ∧
    (normalizeResult emptyNameDetectResponse).diseaseName = "Blight" ∧
    (normalizeResult emptyNameDetectResponse).diseaseName ≠ "" := by
  refine ⟨rfl, rfl, by decide⟩

/-- Claim C7 as amended: the disease name is taken from the first present
*and non-empty* field among `disease_name`, `disease`, `label` (absent and
empty-string fields are skipped), falling back to "Unknown disease";
the confidence is `confidence` when numeric, else `confidence_percent`;
in particular a response containing only `label` (non-empty) and
`confidence_percent` yields exactly those values. -/
theorem disease_normalization_fallback_amended (data : DetectResponse) :
    (∀ s, data.disease_name = some s → s ≠ "" →
      (normalizeResult data).diseaseName = s) ∧
    (∀ s, (data.disease_name = none ∨ data.disease_name = some "") →
      data.disease = some s → s ≠ "" →
      (normalizeResult data).diseaseName = s) ∧
    (∀ s, (data.disease_name = none ∨ data.disease_name = some "") →
      (data.disease = none ∨ data.disease = some "") →
      data.label = some s → s ≠ "" →
      (normalizeResult data).diseaseName = s) ∧
    ((data.disease_name = none ∨ data.disease_name = some "") →
      (data.disease = none ∨ data.disease = some "") →
      (data.label = none ∨ data.label = some "") →
      (normalizeResult data).diseaseName = "Unknown disease") ∧
    (∀ q, data.confidence = some (.num q) →
      (normalizeResult data).confidence = some (.num q)) ∧
    ((data.confidence = none ∨ (∃ s, data.confidence = some (.str s)) ∨
      (∃ i l p, data.confidence = some (.obj i l p))) →
      (normalizeResult data).confidence = data.confidence_percent) ∧
    (∀ name cp, name ≠ "" →
      data.disease_name = none → data.disease = none →
      data.label = some name → data.confidence = none →
      data.confidence_percent = some cp →
      (normalizeResult data).diseaseName = name ∧
      (normalizeResult data).confidence = some cp) := by
  refine ⟨?_, ?_, ?_, ?_, ?_, ?_, ?_⟩
  · intro s h1 h2
    simp [normalizeResult, orStr, h1, h2]
  · rintro s (h1 | h1) h2 h3 <;> simp [normalizeResult, orStr, h1, h2, h3]
  · rintro s (h1 | h1) (h2 | h2) h3 h4 <;>
      simp [normalizeResult, orStr, h1, h2, h3, h4]
  · rintro (h1 | h1) (h2 | h2) (h3 | h3) <;>
      simp [normalizeResult, orStr, h1, h2, h3]
  · intro q hq
    simp [normalizeResult, hq]
  · rintro (h | ⟨s, h⟩ | ⟨i, l, p, h⟩) <;> simp [normalizeResult, h]
  · intro name cp hname h1 h2 h3 h4 h5
    exact ⟨by simp [normalizeResult, orStr, h1, h2, h3, hname],
           by simp [normalizeResult, h4, h5]⟩

/-- A detection response carrying only `label` and `confidence_percent`. -/
def labelOnlyDetectResponse : DetectResponse :=
  ⟨none, none, some "Tomato_mosaic_virus", none, some (.num 87),
   none, none, none, none⟩

/-- Witness for the amended C7 at the claim's own particular instance. -/
theorem disease_normalization_fallback_amended_witness :
    (normalizeResult labelOnlyDetectResponse).diseaseName =
      "Tomato_mosaic_virus" ∧
    (normalizeResult labelOnlyDetectResponse).confidence = some (.num 87) :=
  (disease_normalization_fallback_amended labelOnlyDetectResponse).2.2.2.2.2.2
    "Tomato_mosaic_virus" (.num 87) (by decide) rfl rfl rfl rfl rfl

/-- A concrete crop-flow history entry. -/
def sampleEntry : HistoryEntry :=
  ⟨"crop", .crop "Rice" "Pune" (some 52000), "2026-10-11T00:00:00.000Z"⟩

/-- Witness for C2: appending 21 entries to an empty store leaves exactly the
20 most recent, newest first, and the store is within capacity. -/
theorem history_capacity_invariant_witness :
    appendAll (List.replicate 21 sampleEntry) [] =
      ((List.replicate 21 sampleEntry).drop 1).reverse ∧
    (appendAll (List.replicate 21 sampleEntry) []).length ≤ 20 := by
  have h := history_capacity_invariant (List.replicate 21 sampleEntry) []
    (by simp)
  exact ⟨h.2.2.2.2 (by simp), h.1⟩

/-- A concrete stand-in for `JSON.parse` followed by the array-shaped use of
the result: only the literal empty array parses. -/
def sampleParse : String → Option (List HistoryEntry) :=
  fun s => if s = "[]" then some [] else none

/-- Witness for C9: absent storage and corrupt storage both read as the empty
sequence. -/
theorem readRecent_total_witness :
    sampleParse "[]" = some ([] : List HistoryEntry) ∧
    readRecent sampleParse none 6 = [] ∧
    readRecent sampleParse (some "not json") 6 = [] := by
  have h := readRecent_total sampleParse 6 (by decide)
  exact ⟨by decide, h.1, h.2.1 "not json" (by decide)⟩

/-- A concrete `URL.createObjectURL` stand-in. -/
def sampleCreateURL : JFile → String := fun f => "blob:" ++ f.name

/-- A 12 MB image file. -/
def oversizedFile : JFile := ⟨"leaf.jpg", 12 * 1024 * 1024, "image/jpeg"⟩

/-- A disease-page state with a staged file, a preview URL, an error and a
displayed result. -/
def stagedDiseaseState : DiseaseState :=
  ⟨some ⟨"old.png", 1000, "image/png"⟩, "blob:old.png", "previous error",
   some ⟨"Rust", some (.num (mkRat 1 2)), none⟩⟩

/-- Witness for C10: a 12 MB file is rejected with the too-large error while
the staged file and preview URL survive and the previous result is
cleared. -/
theorem processFile_size_gate_witness :
    processFile sampleCreateURL (some oversizedFile) stagedDiseaseState =
      { stagedDiseaseState with
          error := "File too large. Maximum size is 10MB.",
          result := none } :=
  (processFile_size_gate sampleCreateURL oversizedFile stagedDiseaseState).1
    (by norm_num [oversizedFile])

end AgriSense
